import Mathlib

/-!
Shallow embedding of src/pkg/main.go of efekarakus/project-bot: a webhook
handler that, on a "pull request opened" event, either creates a tracking
card for the pull request in the "In review" column of a GitHub project
board or moves the already-existing card there.

Modelling choices, read against the Go source:
* go-github entities are embedded as plain structures carrying exactly the
  fields the handler reads.  The Go getters (GetID, GetNodeID, GetName)
  return the zero value of the field when the receiver or field pointer is
  nil; embedding the fields as plain Int/String values whose range includes
  0 and "" captures that.
* The remote GitHub API is an oracle, a `Board` structure of response
  functions.  Every outbound call the handler can make is recorded in a
  trace of `Call` values; the handler returns this trace together with the
  HTTP response it writes.
* A failing go-github call returns an error together with a response that
  is nil on transport-level failures; `BoardError.status` is `some s` when
  a remote response with status code s accompanied the error, and `none`
  when the response is nil.  Where the Go code dereferences the nil
  response (resp.StatusCode), the handler panics; a panic is embedded as
  the handler result `none` (no HTTP response is produced).
* `http.Error(w, msg, code)` is embedded as the response ⟨code, msg⟩; the
  trailing newline Go appends to the body is dropped.  A bare WriteHeader
  is a response with empty body.
* Go map iteration order (the nil check in getColumns) is nondeterministic;
  it is determinized here to the fixed `allColumns` order, a refinement:
  the error is reported for some missing column name, the claims do not
  depend on which one.
-/

/-- A project of the board API: the handler reads its ID and name
(projects[0].GetName(), proj.GetID()). -/
structure Project where
  id : Int
  name : String
deriving DecidableEq, Repr

/-- A project column: the handler reads column.GetName() and
column.GetID(). -/
structure ProjectColumn where
  id : Int
  name : String
deriving DecidableEq, Repr

/-- A project card: the handler reads card.GetNodeID() and card.GetID(). -/
structure ProjectCard where
  id : Int
  nodeID : String
deriving DecidableEq, Repr

/-- The pull request of the event: the handler reads pr.GetNodeID(),
pr.GetID() and pr.GetTitle(). -/
structure PullRequest where
  id : Int
  nodeID : String
  title : String
deriving DecidableEq, Repr

/-- A github.PullRequestEvent: e.GetAction() and e.GetPullRequest(). -/
structure PullRequestEvent where
  action : String
  pr : PullRequest
deriving DecidableEq, Repr

/-- Constant OWNER of main.go. -/
def OWNER : String := "iamhopaul123"

/-- Constant REPO of main.go. -/
def REPO : String := "penghaoh-flask-app"

/-- Constant PROJECT_NAME of main.go. -/
def PROJECT_NAME : String := "Sprint"

/-- Constant BACKLOG of main.go. -/
def BACKLOG : String := "Backlog"

/-- Constant IN_PROGRESS of main.go. -/
def IN_PROGRESS : String := "In progress"

/-- Constant IN_REVIEW of main.go. -/
def IN_REVIEW : String := "In review"

/-- Constant PENDING_RELEASE of main.go. -/
def PENDING_RELEASE : String := "Pending release"

/-- var allColumns = []string{BACKLOG, IN_PROGRESS, IN_REVIEW, PENDING_RELEASE}. -/
def allColumns : List String := [BACKLOG, IN_PROGRESS, IN_REVIEW, PENDING_RELEASE]

/-- One outbound call to the board API, with the arguments the Go code
passes. -/
inductive Call where
  | listProjects (owner repo : String)
  | listColumns (projectID : Int)
  | listCards (columnID : Int)
  | createCard (columnID : Int) (contentID : Int) (contentType : String)
  | moveCard (cardID : Int) (position : String) (columnID : Int)
deriving DecidableEq, Repr

/-- The HTTP response the handler writes: status code and body. -/
structure Response where
  status : Nat
  body : String
deriving DecidableEq, Repr

/-- A failed board call: err.Error() and, when a remote response
accompanied the error (resp non-nil in Go), its HTTP status code. -/
structure BoardError where
  msg : String
  status : Option Nat
deriving DecidableEq, Repr

/-- The remote board API as an oracle of responses, one field per
go-github method the handler calls. -/
structure Board where
  listProjectsResp : Except BoardError (List Project)
  listColumnsResp : Int → Except BoardError (List ProjectColumn)
  listCardsResp : Int → Except BoardError (List ProjectCard)
  createCardResp : Int → Int → String → Except BoardError Unit
  moveCardResp : Int → String → Int → Except BoardError Unit

/-- The column of the listing that ends up under a given name in the
projColumns map of getColumns: assignments overwrite, so the last listed
column with that name wins; none if the name never occurs. -/
def findColumn (cols : List ProjectColumn) (name : String) : Option ProjectColumn :=
  (cols.filter (fun c => c.name = name)).getLast?

/-- The pure tail of getColumns: populate the four-key map from the listed
columns, then fail on the first (in determinized allColumns order) required
name still unassigned, else return the name-to-column assignment. -/
def resolveColumns (cols : List ProjectColumn) : Except String (List (String × ProjectColumn)) :=
  match allColumns.find? (fun n => (findColumn cols n).isNone) with
  | some n => Except.error ("column " ++ n ++ " does not exist")
  | none => Except.ok (allColumns.filterMap (fun n => (findColumn cols n).map (fun c => (n, c))))

/-- func getColumns: list the project's columns, fail on a listing error
(the handler maps it to 401 whatever its status), fail with
"column <name> does not exist" when a required name is missing, else
return the resolved columns. -/
def getColumns (board : Board) (proj : Project) : Except BoardError (List (String × ProjectColumn)) :=
  match board.listColumnsResp proj.id with
  | Except.error err => Except.error err
  | Except.ok cols =>
    match resolveColumns cols with
    | Except.error msg => Except.error ⟨msg, none⟩
    | Except.ok resolved => Except.ok resolved

/-- columns[name].GetID(): look the name up in the resolved columns; a
miss is a nil *ProjectColumn in Go, whose GetID() is 0. -/
def lookupColumnID (resolved : List (String × ProjectColumn)) (name : String) : Int :=
  match resolved.find? (fun p => p.1 = name) with
  | some p => p.2.id
  | none => 0

/-- The card-listing loop of the handler: for each column name in order,
list that column's cards and append them; the first listing error aborts
the loop.  Returns the calls made and either the error or the accumulated
cards. -/
def collectCards (board : Board) (resolved : List (String × ProjectColumn)) :
    List String → List Call × Except BoardError (List ProjectCard)
  | [] => ([], Except.ok [])
  | n :: rest =>
    let colID := lookupColumnID resolved n
    match board.listCardsResp colID with
    | Except.error err => ([Call.listCards colID], Except.error err)
    | Except.ok cs =>
      let r := collectCards board resolved rest
      (Call.listCards colID :: r.1, r.2.map (fun more => cs ++ more))

/-- The card-matching loop: cardID starts at 0 and takes the ID of the
first accumulated card whose node ID equals the pull request's node ID
(the loop breaks at the first match). -/
def selectCardID (cards : List ProjectCard) (nid : String) : Int :=
  ((cards.find? (fun c => c.nodeID = nid)).map (fun c => c.id)).getD 0

/-- The PullRequestEvent arm of func handler, after payload validation and
parsing (the Event Gateway, external to this embedding) succeeded.
Returns the trace of board calls and the HTTP response written, `none`
standing for a panic (projects[0] on an empty slice, or resp.StatusCode
on a nil response). -/
def handler (board : Board) (e : PullRequestEvent) : List Call × Option Response :=
  if e.action ≠ "opened" then
    ([], some ⟨202, ""⟩)
  else
    let pr := e.pr
    let t0 := [Call.listProjects OWNER REPO]
    match board.listProjectsResp with
    | Except.error err => (t0, some ⟨401, err.msg⟩)
    | Except.ok projects =>
      match projects.head? with
      | none => (t0, none)
      | some proj =>
        if proj.name ≠ PROJECT_NAME then
          (t0, some ⟨401, "project " ++ proj.name ++ " not found"⟩)
        else
          let t1 := t0 ++ [Call.listColumns proj.id]
          match getColumns board proj with
          | Except.error err => (t1, some ⟨401, err.msg⟩)
          | Except.ok resolved =>
            let rc := collectCards board resolved allColumns
            let t2 := t1 ++ rc.1
            match rc.2 with
            | Except.error err => (t2, err.status.map (fun s => ⟨s, err.msg⟩))
            | Except.ok cards =>
              let cardID := selectCardID cards pr.nodeID
              let inReviewID := lookupColumnID resolved IN_REVIEW
              if cardID = 0 then
                let t3 := t2 ++ [Call.createCard inReviewID pr.id "PullRequest"]
                match board.createCardResp inReviewID pr.id "PullRequest" with
                | Except.error err => (t3, err.status.map (fun s => ⟨s, err.msg⟩))
                | Except.ok _ => (t3, some ⟨201, ""⟩)
              else
                let t3 := t2 ++ [Call.moveCard cardID "bottom" inReviewID]
                match board.moveCardResp cardID "bottom" inReviewID with
                | Except.error err => (t3, err.status.map (fun s => ⟨s, err.msg⟩))
                | Except.ok _ => (t3, some ⟨201, ""⟩)

/-- Whether a call mutates the board (create-card or move-card). -/
def isMutating : Call → Bool
  | Call.createCard _ _ _ => true
  | Call.moveCard _ _ _ => true
  | _ => false

/-- Whether a call is a move-card call. -/
def isMoveCall : Call → Bool
  | Call.moveCard _ _ _ => true
  | _ => false

/-- Whether a call is a project-listing call. -/
def isListProjectsCall : Call → Bool
  | Call.listProjects _ _ => true
  | _ => false

/-- Whether a call is a column-listing call. -/
def isListColumnsCall : Call → Bool
  | Call.listColumns _ => true
  | _ => false

/-- Whether a call is a card-listing call. -/
def isListCardsCall : Call → Bool
  | Call.listCards _ => true
  | _ => false

/-! Helper lemmas about the card-listing loop's trace. -/

/-- Every call the card-listing loop makes is a card-listing call: its
trace contains no call selected by a predicate that rejects card-listing
calls. -/
theorem collectCards_trace_filter (board : Board) (resolved : List (String × ProjectColumn))
    (f : Call → Bool) (hf : ∀ i, f (Call.listCards i) = false) :
    ∀ names : List String, ((collectCards board resolved names).1).filter f = [] := by
  intro names
  induction names with
  | nil => simp [collectCards]
  | cons n rest ih =>
    cases h : board.listCardsResp (lookupColumnID resolved n) with
    | error err => simp [collectCards, h, hf]
    | ok cs => simp [collectCards, h, hf, ih]

/-- The card-listing loop makes no calls counted by a predicate that does
not count card-listing calls. -/
theorem collectCards_trace_countP (board : Board) (resolved : List (String × ProjectColumn))
    (f : Call → Bool) (hf : ∀ i, f (Call.listCards i) = false) :
    ∀ names : List String, ((collectCards board resolved names).1).countP f = 0 := by
  intro names
  have h := collectCards_trace_filter board resolved f hf names
  rw [List.countP_eq_length_filter, h]
  rfl

/-- The card-listing loop makes at most one call per column name. -/
theorem collectCards_trace_length (board : Board) (resolved : List (String × ProjectColumn)) :
    ∀ names : List String, ((collectCards board resolved names).1).length ≤ names.length := by
  intro names
  induction names with
  | nil => simp [collectCards]
  | cons n rest ih =>
    cases h : board.listCardsResp (lookupColumnID resolved n) with
    | error err => simp [collectCards, h]
    | ok cs =>
      simp only [collectCards, h, List.length_cons]
      exact Nat.succ_le_succ ih

/-- A mutating call is never a card-listing call. -/
theorem isMutating_listCards (i : Int) : isMutating (Call.listCards i) = false := rfl

/-! Concrete boards and events used as witnesses. -/

/-- A board whose listings all succeed: the expected project, the four
required columns, no cards anywhere, and succeeding mutations. -/
def okBoard : Board where
  listProjectsResp := Except.ok [⟨7, "Sprint"⟩]
  listColumnsResp := fun _ =>
    Except.ok [⟨1, "Backlog"⟩, ⟨2, "In progress"⟩, ⟨3, "In review"⟩, ⟨4, "Pending release"⟩]
  listCardsResp := fun _ => Except.ok []
  createCardResp := fun _ _ _ => Except.ok ()
  moveCardResp := fun _ _ _ => Except.ok ()

/-- An "opened" pull-request event for a pull request with numeric ID 42
and node ID "PR_1". -/
def openedEvent : PullRequestEvent := ⟨"opened", ⟨42, "PR_1", "title"⟩⟩

/-- C4: for every pull-request event whose action is not "opened", the
handler performs no board call at all and responds 202 with an empty
body. -/
theorem C4_non_opened_no_calls (board : Board) (e : PullRequestEvent)
    (h : e.action ≠ "opened") :
    handler board e = ([], some ⟨202, ""⟩) := by
  simp [handler, h]

/-- Witness for C4 at the concrete event with action "closed". -/
theorem C4_non_opened_no_calls_witness :
    handler okBoard ⟨"closed", ⟨1, "x", "t"⟩⟩ = ([], some ⟨202, ""⟩) :=
  C4_non_opened_no_calls okBoard ⟨"closed", ⟨1, "x", "t"⟩⟩ (by decide)

/-- C6: when the first listed project's name differs from PROJECT_NAME,
the handler responds 401 with the "project <name> not found" message and
its trace is the single project-listing call: no column listing, card
listing, or mutation happened. -/
theorem C6_project_not_found (board : Board) (e : PullRequestEvent)
    (ps : List Project) (p : Project)
    (hact : e.action = "opened")
    (hps : board.listProjectsResp = Except.ok ps)
    (hhd : ps.head? = some p)
    (hname : p.name ≠ PROJECT_NAME) :
    handler board e =
      ([Call.listProjects OWNER REPO], some ⟨401, "project " ++ p.name ++ " not found"⟩) := by
  simp [handler, hact, hps, hhd, hname]

/-- Witness for C6: first project named "Other" instead of "Sprint". -/
theorem C6_project_not_found_witness :
    handler { okBoard with listProjectsResp := Except.ok [⟨7, "Other"⟩] } openedEvent =
      ([Call.listProjects OWNER REPO], some ⟨401, "project Other not found"⟩) :=
  C6_project_not_found _ openedEvent [⟨7, "Other"⟩] ⟨7, "Other"⟩ rfl rfl rfl (by decide)

/-- C9: when the project listing succeeds with an empty list, the handler
dereferences projects[0] out of bounds (embedded as the `none` response:
a panic, not the "project not found" error path); its trace stops at the
single project-listing call. -/
theorem C9_empty_projects_panics (board : Board) (e : PullRequestEvent)
    (hact : e.action = "opened")
    (hps : board.listProjectsResp = Except.ok []) :
    handler board e = ([Call.listProjects OWNER REPO], none) := by
  simp [handler, hact, hps]

/-- Witness for C9 at a concrete board returning zero projects. -/
theorem C9_empty_projects_panics_witness :
    handler { okBoard with listProjectsResp := Except.ok [] } openedEvent =
      ([Call.listProjects OWNER REPO], none) :=
  C9_empty_projects_panics _ openedEvent rfl rfl

/-- The resolved columns of okBoard's column listing. -/
def okResolved : List (String × ProjectColumn) :=
  [("Backlog", ⟨1, "Backlog"⟩), ("In progress", ⟨2, "In progress"⟩),
   ("In review", ⟨3, "In review"⟩), ("Pending release", ⟨4, "Pending release"⟩)]

/-- C1: on an "opened" event reaching the card-matching step with no
accumulated card matching the pull request's node ID, and the creation
succeeding, the handler's only mutating call is one create-card against
the "In review" column's ID with content ID the pull request's numeric ID
and content type "PullRequest", and the response is 201. -/
theorem C1_create_on_no_match (board : Board) (e : PullRequestEvent)
    (ps : List Project) (p : Project) (resolved : List (String × ProjectColumn))
    (tc : List Call) (cards : List ProjectCard)
    (hact : e.action = "opened")
    (hps : board.listProjectsResp = Except.ok ps)
    (hhd : ps.head? = some p)
    (hname : p.name = PROJECT_NAME)
    (hcols : getColumns board p = Except.ok resolved)
    (hcards : collectCards board resolved allColumns = (tc, Except.ok cards))
    (hnomatch : cards.find? (fun c => c.nodeID = e.pr.nodeID) = none)
    (hcreate : board.createCardResp (lookupColumnID resolved IN_REVIEW) e.pr.id "PullRequest" = Except.ok ()) :
    (handler board e).1.filter isMutating =
      [Call.createCard (lookupColumnID resolved IN_REVIEW) e.pr.id "PullRequest"]
    ∧ (handler board e).2 = some ⟨201, ""⟩ := by
  have hsel : selectCardID cards e.pr.nodeID = 0 := by
    simp [selectCardID, hnomatch]
  have htc : ((collectCards board resolved allColumns).1).filter isMutating = [] :=
    collectCards_trace_filter board resolved isMutating (fun i => rfl) allColumns
  rw [hcards] at htc
  simp [handler, hact, hps, hhd, hname, hcols, hcards, hsel, hcreate, htc, isMutating]

/-- Witness for C1: okBoard lists no cards at all, so the pull request
matches nothing and a card is created in column 3 ("In review"). -/
theorem C1_create_on_no_match_witness :
    (handler okBoard openedEvent).1.filter isMutating = [Call.createCard 3 42 "PullRequest"]
    ∧ (handler okBoard openedEvent).2 = some ⟨201, ""⟩ := by
  exact C1_create_on_no_match okBoard openedEvent [⟨7, "Sprint"⟩] ⟨7, "Sprint"⟩ okResolved
    [Call.listCards 1, Call.listCards 2, Call.listCards 3, Call.listCards 4] []
    rfl rfl rfl rfl rfl rfl rfl rfl

/-- A board whose Backlog column holds one card whose node ID matches
"PR_2" but whose card ID is the zero sentinel. -/
def cardZeroBoard : Board :=
  { okBoard with listCardsResp := fun i => if i = 1 then Except.ok [⟨0, "PR_2"⟩] else Except.ok [] }

/-- An "opened" event for pull request number 43 with node ID "PR_2". -/
def openedEvent2 : PullRequestEvent := ⟨"opened", ⟨43, "PR_2", "title"⟩⟩

/-- Counterexample to C2 as stated: the Backlog listing of cardZeroBoard
holds a card whose node ID equals the event's pull-request node ID (so a
card matches), yet the handler performs no move-card call at all — its
only mutating call is a create-card. -/
theorem C2_counterexample :
    cardZeroBoard.listCardsResp 1 = Except.ok [⟨0, "PR_2"⟩]
    ∧ (handler cardZeroBoard openedEvent2).1.countP isMoveCall = 0
    ∧ (handler cardZeroBoard openedEvent2).1.filter isMutating
        = [Call.createCard 3 43 "PullRequest"] := by
  refine ⟨rfl, by decide, by decide⟩

/-- C2 amended: on an "opened" event reaching the card-matching step where
the first accumulated card matching the pull request's node ID has a
NONZERO card ID, and the move succeeding, the handler's only mutating call
is one move-card with that card's ID, destination the "In review" column's
ID and position "bottom", and the response is 201.  (A matching card whose
ID is 0 instead takes the create path, see the zero-sentinel check.) -/
theorem C2_move_on_match (board : Board) (e : PullRequestEvent)
    (ps : List Project) (p : Project) (resolved : List (String × ProjectColumn))
    (tc : List Call) (cards : List ProjectCard) (c : ProjectCard)
    (hact : e.action = "opened")
    (hps : board.listProjectsResp = Except.ok ps)
    (hhd : ps.head? = some p)
    (hname : p.name = PROJECT_NAME)
    (hcols : getColumns board p = Except.ok resolved)
    (hcards : collectCards board resolved allColumns = (tc, Except.ok cards))
    (hfind : cards.find? (fun k => k.nodeID = e.pr.nodeID) = some c)
    (hid : c.id ≠ 0)
    (hmove : board.moveCardResp c.id "bottom" (lookupColumnID resolved IN_REVIEW) = Except.ok ()) :
    (handler board e).1.filter isMutating =
      [Call.moveCard c.id "bottom" (lookupColumnID resolved IN_REVIEW)]
    ∧ (handler board e).2 = some ⟨201, ""⟩ := by
  have hsel : selectCardID cards e.pr.nodeID = c.id := by
    simp [selectCardID, hfind]
  have htc : ((collectCards board resolved allColumns).1).filter isMutating = [] :=
    collectCards_trace_filter board resolved isMutating (fun i => rfl) allColumns
  rw [hcards] at htc
  simp [handler, hact, hps, hhd, hname, hcols, hcards, hsel, hid, hmove, htc, isMutating]

/-- A board whose Backlog column holds card 555 for node ID "PR_2". -/
def card555Board : Board :=
  { okBoard with listCardsResp := fun i => if i = 1 then Except.ok [⟨555, "PR_2"⟩] else Except.ok [] }

/-- Witness for the amended C2: card 555 in Backlog matches "PR_2" and is
moved to the bottom of column 3 ("In review"). -/
theorem C2_move_on_match_witness :
    (handler card555Board openedEvent2).1.filter isMutating = [Call.moveCard 555 "bottom" 3]
    ∧ (handler card555Board openedEvent2).2 = some ⟨201, ""⟩ := by
  exact C2_move_on_match card555Board openedEvent2 [⟨7, "Sprint"⟩] ⟨7, "Sprint"⟩ okResolved
    [Call.listCards 1, Call.listCards 2, Call.listCards 3, Call.listCards 4]
    [⟨555, "PR_2"⟩] ⟨555, "PR_2"⟩
    rfl rfl rfl rfl rfl rfl rfl (by decide) rfl

/-- C10: when the first accumulated card matching the pull request's node
ID has card ID 0 (the not-found sentinel), the handler takes the
create-card path exactly as in the no-match case: its only mutating call
is the same create-card against the "In review" column, and the response
is the same function of the create-card outcome. -/
theorem C10_zero_id_sentinel (board : Board) (e : PullRequestEvent)
    (ps : List Project) (p : Project) (resolved : List (String × ProjectColumn))
    (tc : List Call) (cards : List ProjectCard) (c : ProjectCard)
    (hact : e.action = "opened")
    (hps : board.listProjectsResp = Except.ok ps)
    (hhd : ps.head? = some p)
    (hname : p.name = PROJECT_NAME)
    (hcols : getColumns board p = Except.ok resolved)
    (hcards : collectCards board resolved allColumns = (tc, Except.ok cards))
    (hfind : cards.find? (fun k => k.nodeID = e.pr.nodeID) = some c)
    (hid : c.id = 0) :
    (handler board e).1.filter isMutating =
      [Call.createCard (lookupColumnID resolved IN_REVIEW) e.pr.id "PullRequest"]
    ∧ (handler board e).2 =
      (match board.createCardResp (lookupColumnID resolved IN_REVIEW) e.pr.id "PullRequest" with
        | Except.error err => err.status.map (fun s => (⟨s, err.msg⟩ : Response))
        | Except.ok _ => some ⟨201, ""⟩) := by
  have hsel : selectCardID cards e.pr.nodeID = 0 := by
    simp [selectCardID, hfind, hid]
  have htc : ((collectCards board resolved allColumns).1).filter isMutating = [] :=
    collectCards_trace_filter board resolved isMutating (fun i => rfl) allColumns
  rw [hcards] at htc
  cases hcc : board.createCardResp (lookupColumnID resolved IN_REVIEW) e.pr.id "PullRequest" with
  | error err =>
    simp [handler, hact, hps, hhd, hname, hcols, hcards, hsel, hcc, htc, isMutating]
  | ok u =>
    simp [handler, hact, hps, hhd, hname, hcols, hcards, hsel, hcc, htc, isMutating]

/-- Witness for C10: cardZeroBoard's Backlog card matches "PR_2" with card
ID 0, and the handler creates a card in column 3 instead of moving. -/
theorem C10_zero_id_sentinel_witness :
    (handler cardZeroBoard openedEvent2).1.filter isMutating = [Call.createCard 3 43 "PullRequest"]
    ∧ (handler cardZeroBoard openedEvent2).2 = some ⟨201, ""⟩ := by
  exact C10_zero_id_sentinel cardZeroBoard openedEvent2 [⟨7, "Sprint"⟩] ⟨7, "Sprint"⟩ okResolved
    [Call.listCards 1, Call.listCards 2, Call.listCards 3, Call.listCards 4]
    [⟨0, "PR_2"⟩] ⟨0, "PR_2"⟩
    rfl rfl rfl rfl rfl rfl rfl rfl

/-- C3: the card search accumulates the four columns' cards in the fixed
order Backlog, In progress, In review, Pending release (first conjunct),
and the matching loop selects the first card in that accumulation order
whose node ID equals the pull request's node ID, ignoring every later
match (second conjunct). -/
theorem C3_first_match_in_fixed_order :
    (∀ (board : Board) (resolved : List (String × ProjectColumn)) (b ip ir pe : List ProjectCard),
      board.listCardsResp (lookupColumnID resolved BACKLOG) = Except.ok b →
      board.listCardsResp (lookupColumnID resolved IN_PROGRESS) = Except.ok ip →
      board.listCardsResp (lookupColumnID resolved IN_REVIEW) = Except.ok ir →
      board.listCardsResp (lookupColumnID resolved PENDING_RELEASE) = Except.ok pe →
      (collectCards board resolved allColumns).2 = Except.ok (b ++ ip ++ ir ++ pe))
    ∧ (∀ (l1 : List ProjectCard) (c : ProjectCard) (l2 : List ProjectCard) (nid : String),
      (∀ k ∈ l1, k.nodeID ≠ nid) → c.nodeID = nid →
      selectCardID (l1 ++ c :: l2) nid = c.id) := by
  constructor
  · intro board resolved b ip ir pe hb hip hir hpe
    simp [collectCards, allColumns, hb, hip, hir, hpe, Except.map]
  · intro l1 c l2 nid hl1 hc
    induction l1 with
    | nil => simp [selectCardID, List.find?_cons, hc]
    | cons a t ih =>
      have ha : ¬(a.nodeID = nid) := hl1 a (List.mem_cons_self a t)
      have ht : ∀ k ∈ t, k.nodeID ≠ nid := fun k hm => hl1 k (List.mem_cons_of_mem a hm)
      simpa [selectCardID, List.find?_cons, ha] using ih ht

/-- A board with one distinct card in each of the four columns. -/
def orderBoard : Board :=
  { okBoard with
    listCardsResp := fun i =>
      if i = 1 then Except.ok [⟨10, "a"⟩]
      else if i = 2 then Except.ok [⟨20, "b"⟩]
      else if i = 3 then Except.ok [⟨30, "c"⟩]
      else Except.ok [⟨40, "d"⟩] }

/-- Witness for C3: the four one-card columns accumulate in Backlog,
In progress, In review, Pending release order, and with two cards sharing
node ID "PR" the earlier one (ID 5) is selected over the later (ID 6). -/
theorem C3_first_match_in_fixed_order_witness :
    (collectCards orderBoard okResolved allColumns).2 =
      Except.ok [⟨10, "a"⟩, ⟨20, "b"⟩, ⟨30, "c"⟩, ⟨40, "d"⟩]
    ∧ selectCardID ([⟨1, "x"⟩] ++ (⟨5, "PR"⟩ : ProjectCard) :: [⟨6, "PR"⟩]) "PR" = 5 := by
  constructor
  · exact C3_first_match_in_fixed_order.1 orderBoard okResolved
      [⟨10, "a"⟩] [⟨20, "b"⟩] [⟨30, "c"⟩] [⟨40, "d"⟩] rfl rfl rfl rfl
  · exact C3_first_match_in_fixed_order.2 [⟨1, "x"⟩] ⟨5, "PR"⟩ [⟨6, "PR"⟩] "PR"
      (by decide) rfl

/-- C5: when the column listing succeeds but omits a required column name,
the handler responds 401 with a "column <name> does not exist" body for a
missing name, and its trace stops at the project-listing and
column-listing calls: no card listing, create-card, or move-card call is
performed. -/
theorem C5_missing_column (board : Board) (e : PullRequestEvent)
    (ps : List Project) (p : Project) (cols : List ProjectColumn)
    (hact : e.action = "opened")
    (hps : board.listProjectsResp = Except.ok ps)
    (hhd : ps.head? = some p)
    (hname : p.name = PROJECT_NAME)
    (hcols : board.listColumnsResp p.id = Except.ok cols)
    (hmiss : ∃ n ∈ allColumns, findColumn cols n = none) :
    ∃ n ∈ allColumns, findColumn cols n = none ∧
      handler board e = ([Call.listProjects OWNER REPO, Call.listColumns p.id],
        some ⟨401, "column " ++ n ++ " does not exist"⟩) := by
  cases hfr : allColumns.find? (fun n => (findColumn cols n).isNone) with
  | none =>
    exfalso
    obtain ⟨n, hn, hnone⟩ := hmiss
    have := List.find?_eq_none.mp hfr n hn
    simp [hnone] at this
  | some n0 =>
    have hmem : n0 ∈ allColumns := List.mem_of_find?_eq_some hfr
    have hpred := List.find?_some hfr
    have hnone : findColumn cols n0 = none := Option.isNone_iff_eq_none.mp hpred
    have hres : resolveColumns cols = Except.error ("column " ++ n0 ++ " does not exist") := by
      simp [resolveColumns, hfr]
    have hgc : getColumns board p = Except.error ⟨"column " ++ n0 ++ " does not exist", none⟩ := by
      simp [getColumns, hcols, hres]
    refine ⟨n0, hmem, hnone, ?_⟩
    simp [handler, hact, hps, hhd, hname, hgc]

/-- A board whose column listing yields only the Backlog column. -/
def missingColumnBoard : Board :=
  { okBoard with listColumnsResp := fun _ => Except.ok [⟨1, "Backlog"⟩] }

/-- Witness for C5: with only Backlog listed, some required column name is
reported missing with a 401 and the trace holds no card or mutation
call. -/
theorem C5_missing_column_witness :
    ∃ n ∈ allColumns, findColumn [⟨1, "Backlog"⟩] n = none ∧
      handler missingColumnBoard openedEvent =
        ([Call.listProjects OWNER REPO, Call.listColumns 7],
          some ⟨401, "column " ++ n ++ " does not exist"⟩) := by
  exact C5_missing_column missingColumnBoard openedEvent [⟨7, "Sprint"⟩] ⟨7, "Sprint"⟩
    [⟨1, "Backlog"⟩] rfl rfl rfl rfl rfl ⟨"In progress", by decide, rfl⟩

/-- A board whose card listings fail with a transport-level error: no
remote response (nil in Go) accompanies the error. -/
def nilRespBoard : Board :=
  { okBoard with listCardsResp := fun _ => Except.error ⟨"boom", none⟩ }

/-- Counterexample to C7 as stated: on a failing card-listing whose error
carries no remote response, the handler produces NO response at all (the
Go code dereferences the nil response, a panic) instead of responding
with an unauthorized/generic status carrying the error message. -/
theorem C7_counterexample :
    (handler nilRespBoard openedEvent).1 =
      [Call.listProjects OWNER REPO, Call.listColumns 7, Call.listCards 1]
    ∧ (handler nilRespBoard openedEvent).2 = none := by
  refine ⟨by decide, by decide⟩

/-- C7 amended: for a failing card-listing, create-card, or move-card
call, the handler aborts and surfaces the remote response's status code
with the error message as body when a remote response accompanied the
error; when none did, it does not respond at all (it panics dereferencing
the nil response).  The three conjuncts cover the card-listing,
create-card, and move-card failures. -/
theorem C7_status_propagation (board : Board) (e : PullRequestEvent)
    (ps : List Project) (p : Project) (resolved : List (String × ProjectColumn))
    (hact : e.action = "opened")
    (hps : board.listProjectsResp = Except.ok ps)
    (hhd : ps.head? = some p)
    (hname : p.name = PROJECT_NAME)
    (hcols : getColumns board p = Except.ok resolved) :
    (∀ (tc : List Call) (err : BoardError),
      collectCards board resolved allColumns = (tc, Except.error err) →
      (handler board e).2 = err.status.map (fun s => (⟨s, err.msg⟩ : Response)))
    ∧ (∀ (tc : List Call) (cards : List ProjectCard) (err : BoardError),
      collectCards board resolved allColumns = (tc, Except.ok cards) →
      selectCardID cards e.pr.nodeID = 0 →
      board.createCardResp (lookupColumnID resolved IN_REVIEW) e.pr.id "PullRequest" = Except.error err →
      (handler board e).2 = err.status.map (fun s => (⟨s, err.msg⟩ : Response)))
    ∧ (∀ (tc : List Call) (cards : List ProjectCard) (err : BoardError),
      collectCards board resolved allColumns = (tc, Except.ok cards) →
      selectCardID cards e.pr.nodeID ≠ 0 →
      board.moveCardResp (selectCardID cards e.pr.nodeID) "bottom" (lookupColumnID resolved IN_REVIEW) = Except.error err →
      (handler board e).2 = err.status.map (fun s => (⟨s, err.msg⟩ : Response))) := by
  refine ⟨?_, ?_, ?_⟩
  · intro tc err hrc
    simp [handler, hact, hps, hhd, hname, hcols, hrc]
  · intro tc cards err hrc hsel hcc
    simp [handler, hact, hps, hhd, hname, hcols, hrc, hsel, hcc]
  · intro tc cards err hrc hsel hmv
    simp [handler, hact, hps, hhd, hname, hcols, hrc, hsel, hmv]

/-- A board whose card listings fail with a remote 502 response. -/
def listFailBoard : Board :=
  { okBoard with listCardsResp := fun _ => Except.error ⟨"gone", some 502⟩ }

/-- A board on which creating a card fails with a remote 422 response. -/
def createFailBoard : Board :=
  { okBoard with createCardResp := fun _ _ _ => Except.error ⟨"dup", some 422⟩ }

/-- A board holding card 555 for "PR_2" on which moving a card fails with
no remote response. -/
def moveFailBoard : Board :=
  { card555Board with moveCardResp := fun _ _ _ => Except.error ⟨"net", none⟩ }

/-- Witness for the amended C7: a 502 listing failure and a 422 creation
failure surface those statuses with their messages; a move failure with no
remote response yields no response. -/
theorem C7_status_propagation_witness :
    (handler listFailBoard openedEvent).2 = some ⟨502, "gone"⟩
    ∧ (handler createFailBoard openedEvent).2 = some ⟨422, "dup"⟩
    ∧ (handler moveFailBoard openedEvent2).2 = none := by
  refine ⟨?_, ?_, ?_⟩
  · exact (C7_status_propagation listFailBoard openedEvent [⟨7, "Sprint"⟩] ⟨7, "Sprint"⟩
      okResolved rfl rfl rfl rfl rfl).1 [Call.listCards 1] ⟨"gone", some 502⟩ rfl
  · exact (C7_status_propagation createFailBoard openedEvent [⟨7, "Sprint"⟩] ⟨7, "Sprint"⟩
      okResolved rfl rfl rfl rfl rfl).2.1
      [Call.listCards 1, Call.listCards 2, Call.listCards 3, Call.listCards 4] [] ⟨"dup", some 422⟩
      rfl rfl rfl
  · exact (C7_status_propagation moveFailBoard openedEvent2 [⟨7, "Sprint"⟩] ⟨7, "Sprint"⟩
      okResolved rfl rfl rfl rfl rfl).2.2
      [Call.listCards 1, Call.listCards 2, Call.listCards 3, Call.listCards 4]
      [⟨555, "PR_2"⟩] ⟨"net", none⟩ rfl (by decide) rfl

/-- C8: whatever the board answers, one handler invocation issues at most
one mutating call (create-card or move-card), at most one project-listing
call, at most one column-listing call, and at most four card-listing
calls.  The calls are sequential with no retries by construction: the
trace is built by straight-line code whose only loop visits each of the
four column names once. -/
theorem C8_call_budget (board : Board) (e : PullRequestEvent) :
    ((handler board e).1).countP isMutating ≤ 1
    ∧ ((handler board e).1).countP isListProjectsCall ≤ 1
    ∧ ((handler board e).1).countP isListColumnsCall ≤ 1
    ∧ ((handler board e).1).countP isListCardsCall ≤ 4 := by
  by_cases hact : e.action = "opened"
  case neg =>
    simp [handler, hact]
  case pos =>
  cases hps : board.listProjectsResp with
  | error err =>
    simp [handler, hact, hps, isMutating, isListProjectsCall, isListColumnsCall, isListCardsCall]
  | ok ps =>
  cases hhd : ps.head? with
  | none =>
    simp [handler, hact, hps, hhd, isMutating, isListProjectsCall, isListColumnsCall, isListCardsCall]
  | some p =>
  by_cases hname : p.name = PROJECT_NAME
  case neg =>
    simp [handler, hact, hps, hhd, hname, isMutating, isListProjectsCall, isListColumnsCall, isListCardsCall]
  case pos =>
  cases hgc : getColumns board p with
  | error err =>
    simp [handler, hact, hps, hhd, hname, hgc, isMutating, isListProjectsCall, isListColumnsCall, isListCardsCall]
  | ok resolved =>
  have hm := collectCards_trace_countP board resolved isMutating (fun i => rfl) allColumns
  have hlp := collectCards_trace_countP board resolved isListProjectsCall (fun i => rfl) allColumns
  have hlc := collectCards_trace_countP board resolved isListColumnsCall (fun i => rfl) allColumns
  have hlen : ((collectCards board resolved allColumns).1).length ≤ 4 :=
    collectCards_trace_length board resolved allColumns
  have hcc : ((collectCards board resolved allColumns).1).countP isListCardsCall ≤ 4 :=
    le_trans (List.countP_le_length _) hlen
  rcases hrc : collectCards board resolved allColumns with ⟨tc, r⟩
  rw [hrc] at hm hlp hlc hcc
  replace hm : List.countP isMutating tc = 0 := hm
  replace hlp : List.countP isListProjectsCall tc = 0 := hlp
  replace hlc : List.countP isListColumnsCall tc = 0 := hlc
  replace hcc : List.countP isListCardsCall tc ≤ 4 := hcc
  cases r with
  | error err =>
    simp [handler, hact, hps, hhd, hname, hgc, hrc, List.countP_append, List.countP_cons,
      isMutating, isListProjectsCall, isListColumnsCall, isListCardsCall, hm, hlp, hlc]
    omega
  | ok cards =>
  by_cases hsel : selectCardID cards e.pr.nodeID = 0
  case pos =>
    cases hcr : board.createCardResp (lookupColumnID resolved IN_REVIEW) e.pr.id "PullRequest" with
    | error err =>
      simp [handler, hact, hps, hhd, hname, hgc, hrc, hsel, hcr, List.countP_append, List.countP_cons,
        isMutating, isListProjectsCall, isListColumnsCall, isListCardsCall, hm, hlp, hlc]
      omega
    | ok u =>
      simp [handler, hact, hps, hhd, hname, hgc, hrc, hsel, hcr, List.countP_append, List.countP_cons,
        isMutating, isListProjectsCall, isListColumnsCall, isListCardsCall, hm, hlp, hlc]
      omega
  case neg =>
    cases hmv : board.moveCardResp (selectCardID cards e.pr.nodeID) "bottom" (lookupColumnID resolved IN_REVIEW) with
    | error err =>
      simp [handler, hact, hps, hhd, hname, hgc, hrc, hsel, hmv, List.countP_append, List.countP_cons,
        isMutating, isListProjectsCall, isListColumnsCall, isListCardsCall, hm, hlp, hlc]
      omega
    | ok u =>
      simp [handler, hact, hps, hhd, hname, hgc, hrc, hsel, hmv, List.countP_append, List.countP_cons,
        isMutating, isListProjectsCall, isListColumnsCall, isListCardsCall, hm, hlp, hlc]
      omega
